import Mathlib

/-!
Verification development for the `requests-safe` library
(`src/requests_safe/__init__.py`): an SSRF-prevention layer that filters
resolved IP addresses against a fixed denylist before connecting.

The development shallowly embeds the three relevant pieces of the source:

* the denylist classifier `ip_is_safe` together with the module-level
  constant `UNSAFE_NETWORKS`;
* the safe dialer `create_connection`, modelled as a pure function over an
  explicit candidate list (the result of `socket.getaddrinfo`, which is an
  external effect) and an environment oracle assigning each candidate the
  outcome of the local socket operations and of the connect attempt.  The
  function additionally returns the ordered trace of socket-level events
  (creation, option setting, timeout setting, connect, close) so that
  resource-handling properties can be stated;
* the integration plumbing `SafeHTTPConnection._new_conn` (here `new_conn`),
  `SafePoolManager`, `SafeHTTPAdapter` and `apply`.

Machine integers do not occur; Python integers are unbounded and are
modelled as `Nat`.  IPv4 addresses are 32-bit values and IPv6 addresses
128-bit values produced by the address parser, which models the accepting
behaviour of Python's `ipaddress.ip_address` on plain dotted-quad IPv4
literals and hexadecimal-group IPv6 literals (with at most one `::`
compression); `ipaddress` is standard-library code external to this
repository.
-/

namespace RequestsSafe

/-! ### Addresses and networks -/

/-- A parsed IP address: the result of `ipaddress.ip_address`.  IPv4 values
are below `2 ^ 32`, IPv6 values below `2 ^ 128`. -/
inductive IPAddr
  | v4 (val : Nat)
  | v6 (val : Nat)
deriving DecidableEq

/-- A CIDR network of a given family: the result of `ipaddress.ip_network`,
a base address together with a routing-prefix length. -/
inductive Network
  | v4 (base prefixLen : Nat)
  | v6 (base prefixLen : Nat)
deriving DecidableEq

/-- Numeric value of a dotted-quad IPv4 literal `a.b.c.d`. -/
def v4addr (a b c d : Nat) : Nat := ((a * 256 + b) * 256 + c) * 256 + d

/-- Numeric value of an IPv6 literal given as its eight 16-bit groups. -/
def v6addr (g1 g2 g3 g4 g5 g6 g7 g8 : Nat) : Nat :=
  (((((((g1 * 65536 + g2) * 65536 + g3) * 65536 + g4) * 65536 + g5) * 65536
    + g6) * 65536 + g7) * 65536 + g8)

/-- The IPv4 network `a.b.c.d/p`. -/
def v4net (a b c d p : Nat) : Network := Network.v4 (v4addr a b c d) p

/-- The IPv6 network `g1:g2:g3:g4:g5:g6:g7:g8/p`. -/
def v6net (g1 g2 g3 g4 g5 g6 g7 g8 p : Nat) : Network :=
  Network.v6 (v6addr g1 g2 g3 g4 g5 g6 g7 g8) p

/-- Membership of an address in a network, the semantics of Python's
`ip in network` used on line 102 of the source: `False` whenever the
families differ, otherwise equality of the leading `prefixLen` bits. -/
def netContains (n : Network) (ip : IPAddr) : Bool :=
  match n, ip with
  | Network.v4 base p, IPAddr.v4 a => a >>> (32 - p) == base >>> (32 - p)
  | Network.v6 base p, IPAddr.v6 a => a >>> (128 - p) == base >>> (128 - p)
  | _, _ => false

/-- Whether a network is an IPv4 network. -/
def isV4Net : Network → Bool
  | Network.v4 _ _ => true
  | Network.v6 _ _ => false

/-- The module-level denylist of the source (lines 27-86), in source
order: sixteen IPv4 networks followed by thirteen IPv6 networks. -/
def UNSAFE_NETWORKS : List Network :=
  [ -- RFC1918 (private network)
    v4net 10 0 0 0 8,
    v4net 172 16 0 0 12,
    v4net 192 168 0 0 16,
    -- Link-Local
    v4net 169 254 0 0 16,
    -- CG-NAT address space
    v4net 100 64 0 0 10,
    -- Localhost/loopback
    v4net 127 0 0 0 8,
    -- Any IP in Linux
    v4net 0 0 0 0 32,
    -- IETF Protocol Assignments
    v4net 192 0 0 0 24,
    -- TEST-NET-1
    v4net 192 0 2 0 24,
    -- RESERVED
    v4net 192 88 99 0 24,
    -- Benchmark testing
    v4net 198 18 0 0 15,
    -- TEST-NET-2
    v4net 198 51 100 0 24,
    -- TEST-NET-3
    v4net 203 0 113 0 24,
    -- IP Multicast
    v4net 224 0 0 0 4,
    -- RESERVED
    v4net 240 0 0 0 4,
    -- Limited broadcast
    v4net 255 255 255 255 32,
    -- Localhost/unspecified address
    v6net 0 0 0 0 0 0 0 0 128,
    -- Loopback
    v6net 0 0 0 0 0 0 0 1 128,
    -- IPv4 mapped address
    v6net 0 0 0 0 0 0xffff 0 0 96,
    -- IPv4 translated addresses
    v6net 0 0 0 0 0xffff 0 0 0 96,
    -- IPv4/IPv6 translation
    v6net 0x64 0xff9b 0 0 0 0 0 0 96,
    -- Discard prefix
    v6net 0x100 0 0 0 0 0 0 0 64,
    -- Teredo tunneling
    v6net 0x2001 0 0 0 0 0 0 0 32,
    -- Orchid v2
    v6net 0x2001 0x20 0 0 0 0 0 0 28,
    -- Documentation
    v6net 0x2001 0xdb8 0 0 0 0 0 0 32,
    -- 6to4 addressing scheme
    v6net 0x2002 0 0 0 0 0 0 0 16,
    -- ULA address space
    v6net 0xfc00 0 0 0 0 0 0 0 7,
    -- Link-local address space
    v6net 0xfe80 0 0 0 0 0 0 0 10,
    -- Global multicast
    v6net 0xff00 0 0 0 0 0 0 0 8 ]

/-! ### The address parser

Model of `ipaddress.ip_address`: IPv4 dotted quads are tried first, then
IPv6 hexadecimal-group literals. -/

/-- Split a character list on a separator character. -/
def splitOnChar (sep : Char) : List Char → List (List Char)
  | [] => [[]]
  | c :: cs =>
    match splitOnChar sep cs with
    | [] => [[c]]
    | h :: t => if c = sep then [] :: h :: t else (c :: h) :: t

/-- Parse one decimal octet of a dotted quad: one to three digits, no
leading zero, value at most 255. -/
def parseDecOctet (cs : List Char) : Option Nat :=
  if cs.length = 0 ∨ 3 < cs.length then none
  else if ¬ cs.all Char.isDigit then none
  else if 1 < cs.length ∧ cs.head? = some '0' then none
  else
    let v := cs.foldl (fun a c => a * 10 + (c.toNat - 48)) 0
    if v ≤ 255 then some v else none

/-- Parse a dotted-quad IPv4 literal into its 32-bit value. -/
def parseIPv4 (cs : List Char) : Option Nat :=
  match (splitOnChar '.' cs).mapM parseDecOctet with
  | some [a, b, c, d] => some (v4addr a b c d)
  | _ => none

/-- Whether a character is a hexadecimal digit. -/
def isHexDigit (c : Char) : Bool :=
  c.isDigit || (97 ≤ c.toNat && c.toNat ≤ 102) || (65 ≤ c.toNat && c.toNat ≤ 70)

/-- Numeric value of a hexadecimal digit. -/
def hexDigitVal (c : Char) : Nat :=
  if c.isDigit then c.toNat - 48
  else if 97 ≤ c.toNat then c.toNat - 87
  else c.toNat - 55

/-- Parse one 16-bit hexadecimal group of an IPv6 literal: one to four
hexadecimal digits. -/
def parseHexGroup (cs : List Char) : Option Nat :=
  if cs.length = 0 ∨ 4 < cs.length then none
  else if ¬ cs.all isHexDigit then none
  else some (cs.foldl (fun a c => a * 16 + hexDigitVal c) 0)

/-- Split at the first occurrence of a double colon, if any. -/
def breakDoubleColon : List Char → Option (List Char × List Char)
  | [] => none
  | ':' :: ':' :: rest => some ([], rest)
  | c :: rest =>
    match breakDoubleColon rest with
    | some (a, b) => some (c :: a, b)
    | none => none

/-- Parse a colon-separated sequence of hexadecimal groups. -/
def colonGroups (cs : List Char) : Option (List Nat) :=
  (splitOnChar ':' cs).mapM parseHexGroup

/-- Combine a list of 16-bit groups into one 128-bit value. -/
def v6OfGroups (gs : List Nat) : Nat := gs.foldl (fun a g => a * 65536 + g) 0

/-- Parse an IPv6 literal into its 128-bit value: either eight plain
groups, or a single `::` compression standing for at least one zero
group. -/
def parseIPv6 (cs : List Char) : Option Nat :=
  match breakDoubleColon cs with
  | none =>
    match colonGroups cs with
    | some gs => if gs.length = 8 then some (v6OfGroups gs) else none
    | none => none
  | some (l, r) =>
    if (breakDoubleColon r).isSome then none
    else
      match (if l.isEmpty then some [] else colonGroups l),
            (if r.isEmpty then some [] else colonGroups r) with
      | some gl, some gr =>
        if gl.length + gr.length ≤ 7 then
          some (v6OfGroups (gl ++ List.replicate (8 - (gl.length + gr.length)) 0 ++ gr))
        else none
      | _, _ => none

/-- Model of `ipaddress.ip_address`: try IPv4 first, then IPv6; `none`
models the `ValueError` raised on a malformed literal. -/
def ip_address (s : String) : Option IPAddr :=
  match parseIPv4 s.data with
  | some v => some (IPAddr.v4 v)
  | none =>
    match parseIPv6 s.data with
    | some v => some (IPAddr.v6 v)
    | none => none

/-- The error vocabulary of the classifier: the `ValueError` raised by
`ipaddress.ip_address` on a malformed literal (the specification's
`AddressParseError`). -/
inductive SafeError
  | addressParseError
deriving DecidableEq

instance {ε α : Type} [DecidableEq ε] [DecidableEq α] : DecidableEq (Except ε α) :=
  fun a b =>
    match a, b with
    | Except.error e1, Except.error e2 =>
      if h : e1 = e2 then isTrue (by rw [h]) else isFalse (fun hh => h (by injection hh))
    | Except.error _, Except.ok _ => isFalse (fun h => Except.noConfusion h)
    | Except.ok _, Except.error _ => isFalse (fun h => Except.noConfusion h)
    | Except.ok x, Except.ok y =>
      if h : x = y then isTrue (by rw [h]) else isFalse (fun hh => h (by injection hh))

/-- The classifier `ip_is_safe` (source lines 89-105): parse the literal
(letting the parse error propagate), then return `false` as soon as one
denylisted network contains the address, `true` if none does. -/
def ip_is_safe (s : String) : Except SafeError Bool :=
  match ip_address s with
  | none => Except.error SafeError.addressParseError
  | some ip =>
    if UNSAFE_NETWORKS.any (fun n => netContains n ip) then Except.ok false
    else Except.ok true

/-! ### The safe dialer `create_connection`

The source function (lines 108-175) resolves `(host, port)` through
`socket.getaddrinfo` and loops over the returned candidate tuples
`(af, socktype, proto, canonname, sa)`.  Name resolution and the network
are external effects: the embedding takes the resolver's candidate list as
an argument, and an environment oracle `env` assigning each candidate the
outcome of its attempt — success, a `socket.error` raised by
`socket.socket(...)` itself, a `socket.timeout` raised by `connect`, or
another `socket.error` raised by `connect`.  `setsockopt` and `settimeout`
are modelled as always-succeeding local operations.  The oracle is a
function of the candidate, so a candidate occurring twice behaves the same
both times (a determinism assumption on the environment).

The embedding returns, besides the result, the ordered trace of
socket-level events of the call.  Sockets are numbered by creation order
within the call. -/

/-- A `(level, optname, value)` socket option triple. -/
abbrev SockOpt := Nat × Nat × Nat

/-- One `getaddrinfo` result tuple `(af, socktype, proto, canonname, sa)`
with `sa = (addr, port)`. -/
structure Candidate where
  af : Nat
  socktype : Nat
  proto : Nat
  canonname : String
  addr : String
  port : Nat
deriving DecidableEq

/-- A raised `socket.error`: whether it is a `socket.timeout` (the subclass
checked first by `SafeHTTPConnection._new_conn`) and its message text. -/
structure SockErr where
  isTimeout : Bool
  msg : String
deriving DecidableEq

/-- Environment-determined outcome of the attempt for one candidate. -/
inductive AttemptOutcome
  | ok
  | createFail (e : SockErr)
  | timedOut
  | connectFail (m : String)
deriving DecidableEq

/-- Socket-level events observable during one dial call. -/
inductive Event
  | sockCreate (sid af socktype proto : Nat)
  | sockCreateFailed (af socktype proto : Nat)
  | setsockopt (sid : Nat) (opt : SockOpt)
  | settimeout (sid : Nat) (t : Nat)
  | connect (sid : Nat) (addr : String) (port : Nat)
  | close (sid : Nat)
deriving DecidableEq

/-- How a `create_connection` call ends: a returned connected socket, a
raised `socket.error` (the recorded last attempt error, or the final
`socket.error("getaddrinfo returns an empty list")`), the uncaught
`TypeError` from iterating over `socket_options = None`, or the uncaught
`ValueError` propagating from `ip_is_safe`. -/
inductive DialResult
  | connected (sid : Nat)
  | raised (e : SockErr)
  | typeError
  | parseError
deriving DecidableEq

/-- The fixed error raised when no connect attempt was ever made
(source line 175). -/
def noAddrErr : SockErr := ⟨false, "getaddrinfo returns an empty list"⟩

/-- The error recorded when a connect attempt times out. -/
def timedOutErr : SockErr := ⟨true, "timed out"⟩

/-- Events of `sock.settimeout(timeout)`, executed only when a timeout was
explicitly requested (source line 158: `timeout is not
socket._GLOBAL_DEFAULT_TIMEOUT`; `none` models the sentinel). -/
def timeoutEvs (sid : Nat) : Option Nat → List Event
  | some t => [Event.settimeout sid t]
  | none => []

/-- Events of one full attempt reaching `connect` (source lines 151-161):
socket creation, every socket option in order, the timeout if requested,
then the connect call. -/
def attemptEvents (sid : Nat) (c : Candidate) (opts : List SockOpt)
    (timeout : Option Nat) : List Event :=
  (Event.sockCreate sid c.af c.socktype c.proto ::
    (opts.map (Event.setsockopt sid) ++ timeoutEvs sid timeout)) ++
  [Event.connect sid c.addr c.port]

/-- Result of the loop body for one candidate: either the whole call ends
(`ret`), or the loop continues (`next`) with the error to record (if any),
the events emitted, and the number of sockets created. -/
inductive StepOut
  | ret (r : DialResult) (evs : List Event)
  | next (newErr : Option SockErr) (evs : List Event) (dsid : Nat)

/-- The loop body of `create_connection` for one candidate (source lines
141-170): classify the address (letting a parse error propagate); skip an
unsafe candidate silently; otherwise create a socket — if creation raises,
record the error and continue with nothing to close; if `socket_options`
is `None`, the `for opt in socket_options` iteration raises an uncaught
`TypeError` with the fresh socket left open; otherwise apply the options
and the requested timeout and connect, returning the socket on success and
closing it and recording the error on timeout or connect failure. -/
def candStep (env : Candidate → AttemptOutcome) (timeout : Option Nat)
    (socket_options : Option (List SockOpt)) (c : Candidate) (sid : Nat) : StepOut :=
  match ip_is_safe c.addr with
  | Except.error _ => StepOut.ret DialResult.parseError []
  | Except.ok false => StepOut.next none [] 0
  | Except.ok true =>
    match env c, socket_options with
    | AttemptOutcome.createFail e, _ =>
      StepOut.next (some e) [Event.sockCreateFailed c.af c.socktype c.proto] 0
    | _, none =>
      StepOut.ret DialResult.typeError [Event.sockCreate sid c.af c.socktype c.proto]
    | AttemptOutcome.ok, some opts =>
      StepOut.ret (DialResult.connected sid) (attemptEvents sid c opts timeout)
    | AttemptOutcome.timedOut, some opts =>
      StepOut.next (some timedOutErr) (attemptEvents sid c opts timeout ++ [Event.close sid]) 1
    | AttemptOutcome.connectFail m, some opts =>
      StepOut.next (some ⟨false, m⟩) (attemptEvents sid c opts timeout ++ [Event.close sid]) 1

/-- The candidate loop of `create_connection` with the recorded last error
`err` and the number of sockets created so far; when the list is
exhausted, re-raise the recorded error, or raise the fixed
`socket.error("getaddrinfo returns an empty list")` when none was recorded
(source lines 172-175). -/
def connLoop (env : Candidate → AttemptOutcome) (timeout : Option Nat)
    (socket_options : Option (List SockOpt)) :
    List Candidate → Option SockErr → Nat → DialResult × List Event
  | [], err, _ =>
    (match err with
     | some e => DialResult.raised e
     | none => DialResult.raised noAddrErr, [])
  | c :: rest, err, sid =>
    match candStep env timeout socket_options c sid with
    | StepOut.ret r evs => (r, evs)
    | StepOut.next newErr evs dsid =>
      let out := connLoop env timeout socket_options rest (newErr <|> err) (sid + dsid)
      (out.fst, evs ++ out.snd)

/-- The safe dialer `create_connection` (source lines 108-175), over the
candidate list produced by `getaddrinfo`.  `socket_options` is `none` when
the parameter is left at its Python default of `None`.  The host-bracket
stripping of lines 124-125 only affects the argument forwarded to
`getaddrinfo`, which is the oracle here, so it does not appear. -/
def create_connection (env : Candidate → AttemptOutcome) (cands : List Candidate)
    (timeout : Option Nat) (socket_options : Option (List SockOpt)) :
    DialResult × List Event :=
  connLoop env timeout socket_options cands none 0

/-- How `SafeHTTPConnection._new_conn` ends: a returned connection, a
`ConnectTimeoutError`, a `NewConnectionError`, or an exception that its
two `except` clauses do not catch. -/
inductive NewConnResult
  | conn (sid : Nat)
  | connectTimeoutError (msg : String)
  | newConnectionError (msg : String)
  | unhandled (r : DialResult)
deriving DecidableEq

/-- Rendering of the timeout in the `ConnectTimeoutError` message
(`"%s" % self.timeout`); the global-default sentinel has an unspecified
object rendering, fixed here as a placeholder. -/
def pyStr : Option Nat → String
  | some n => Nat.repr n
  | none => "<socket global default timeout>"

/-- `SafeHTTPConnection._new_conn` (source lines 185-213): forward
`socket_options` only when truthy (an empty list, like `None`, is falsy
and is not forwarded); re-raise a `socket.timeout` as a
`ConnectTimeoutError` naming `self.host` and `self.timeout`, any other
`socket.error` as a `NewConnectionError` wrapping the error text.  The
`self.host.rstrip(".")` on line 198 only affects the argument forwarded to
`getaddrinfo`, which is the oracle here. -/
def new_conn (host : String) (timeout : Option Nat) (sockopts : List SockOpt)
    (env : Candidate → AttemptOutcome) (cands : List Candidate) : NewConnResult :=
  let socket_options := if sockopts.isEmpty then none else some sockopts
  match (create_connection env cands timeout socket_options).fst with
  | DialResult.connected sid => NewConnResult.conn sid
  | DialResult.raised e =>
    if e.isTimeout then
      NewConnResult.connectTimeoutError
        ("Connection to " ++ host ++ " timed out. (connect timeout=" ++ pyStr timeout ++ ")")
    else
      NewConnResult.newConnectionError ("Failed to establish a new connection: " ++ e.msg)
  | r => NewConnResult.unhandled r

/-! ### Candidate classification helpers, in terms of the embedding -/

/-- Whether the classifier rejects this candidate's address. -/
def deniedCand (c : Candidate) : Bool :=
  match ip_is_safe c.addr with
  | Except.ok false => true
  | _ => false

/-- Whether the classifier allows this candidate's address. -/
def safeCand (c : Candidate) : Bool :=
  match ip_is_safe c.addr with
  | Except.ok true => true
  | _ => false

/-- Whether this candidate's address is a syntactically valid IP literal. -/
def validCand (c : Candidate) : Bool := (ip_address c.addr).isSome

/-- Whether the outcome is a successful connect. -/
def isOkOutcome : AttemptOutcome → Bool
  | AttemptOutcome.ok => true
  | _ => false

/-- Whether the outcome is a socket-creation failure. -/
def isCreateFail : AttemptOutcome → Bool
  | AttemptOutcome.createFail _ => true
  | _ => false

/-- A safe candidate whose connect succeeds. -/
def goodCand (env : Candidate → AttemptOutcome) (c : Candidate) : Bool :=
  safeCand c && isOkOutcome (env c)

/-- The error this candidate records into `err`, if any: `none` for a
filtered candidate and for a successful attempt. -/
def candErr (env : Candidate → AttemptOutcome) (c : Candidate) : Option SockErr :=
  if safeCand c then
    match env c with
    | AttemptOutcome.ok => none
    | AttemptOutcome.createFail e => some e
    | AttemptOutcome.timedOut => some timedOutErr
    | AttemptOutcome.connectFail m => some ⟨false, m⟩
  else none

/-- The number of sockets this candidate creates when its attempt fails. -/
def candK (env : Candidate → AttemptOutcome) (c : Candidate) : Nat :=
  if safeCand c then
    match env c with
    | AttemptOutcome.createFail _ => 0
    | _ => 1
  else 0

/-- The events this candidate emits when processed with `socket_options`
present. -/
def candEvs (env : Candidate → AttemptOutcome) (timeout : Option Nat)
    (opts : List SockOpt) (c : Candidate) (sid : Nat) : List Event :=
  if safeCand c then
    match env c with
    | AttemptOutcome.createFail _ => [Event.sockCreateFailed c.af c.socktype c.proto]
    | AttemptOutcome.ok => attemptEvents sid c opts timeout
    | _ => attemptEvents sid c opts timeout ++ [Event.close sid]
  else []

/-- The events emitted by a list of candidates none of which ends the
loop. -/
def preEvs (env : Candidate → AttemptOutcome) (timeout : Option Nat)
    (opts : List SockOpt) : List Candidate → Nat → List Event
  | [], _ => []
  | c :: rest, sid =>
    candEvs env timeout opts c sid ++ preEvs env timeout opts rest (sid + candK env c)

/-- The recorded error after processing a candidate list none of which
ends the loop, starting from recorded error `err`. -/
def errAfter (env : Candidate → AttemptOutcome) (pre : List Candidate)
    (err : Option SockErr) : Option SockErr :=
  (pre.filterMap (candErr env)).getLast? <|> err

/-- Total number of sockets created by a candidate list none of which ends
the loop. -/
def kOf (env : Candidate → AttemptOutcome) (pre : List Candidate) : Nat :=
  (pre.map (candK env)).sum

/-! ### The integration plumbing (source lines 178-285) -/

/-- The connection classes in play: the two safety-checked classes of the
source (`SafeHTTPConnection`, and `SafeHTTPSConnection`, which inherits
its `_new_conn`) and the default urllib3 classes they replace. -/
inductive ConnectionClass
  | safeHTTP
  | safeHTTPS
  | urllib3HTTP
  | urllib3HTTPS
deriving DecidableEq

/-- The pool classes in play: the two safety-checked pool classes of the
source and the default urllib3 pool classes. -/
inductive PoolClass
  | safeHTTPPool
  | safeHTTPSPool
  | urllib3HTTPPool
  | urllib3HTTPSPool
deriving DecidableEq

/-- The `ConnectionCls` attribute of each pool class (source lines
227-240): the safe pools override it with the safe connection classes. -/
def ConnectionCls : PoolClass → ConnectionClass
  | PoolClass.safeHTTPPool => ConnectionClass.safeHTTP
  | PoolClass.safeHTTPSPool => ConnectionClass.safeHTTPS
  | PoolClass.urllib3HTTPPool => ConnectionClass.urllib3HTTP
  | PoolClass.urllib3HTTPSPool => ConnectionClass.urllib3HTTPS

/-- The `_new_conn` hook of each connection class: the two safe classes
use the overriding `SafeHTTPConnection._new_conn` modelled by `new_conn`
(`SafeHTTPSConnection` inherits it, source lines 216-224); the default
classes dial through urllib3's own routine, which is external code. -/
def classNewConn : ConnectionClass →
    Option (String → Option Nat → List SockOpt →
      (Candidate → AttemptOutcome) → List Candidate → NewConnResult)
  | ConnectionClass.safeHTTP => some new_conn
  | ConnectionClass.safeHTTPS => some new_conn
  | _ => none

/-- `SafePoolManager` (source lines 243-256), reduced to the
`pool_classes_by_scheme` table its `__init__` overrides. -/
structure SafePoolManager where
  pool_classes_by_scheme : List (String × PoolClass)
deriving DecidableEq

/-- The `pool_classes_by_scheme` value set by `SafePoolManager.__init__`. -/
def SafePoolManager.make : SafePoolManager :=
  ⟨[("http", PoolClass.safeHTTPPool), ("https", PoolClass.safeHTTPSPool)]⟩

/-- `SafeHTTPAdapter` (source lines 259-279): its `init_poolmanager`, run
at construction, installs a `SafePoolManager`. -/
structure SafeHTTPAdapter where
  poolmanager : SafePoolManager
deriving DecidableEq

/-- A freshly constructed `SafeHTTPAdapter()`. -/
def SafeHTTPAdapter.make : SafeHTTPAdapter := ⟨SafePoolManager.make⟩

/-- An adapter mountable on a requests session: the safety-checked
adapter, or the default `requests` adapter (external code). -/
inductive Adapter
  | safe (a : SafeHTTPAdapter)
  | base
deriving DecidableEq

/-- A requests session, reduced to its adapter mount table keyed by
scheme prefix (external collaborator, modelled through the interface the
specification requires of it). -/
structure Session where
  adapters : List (String × Adapter)

/-- `Session.mount` of requests: the entry for the prefix is replaced. -/
def Session.mount (s : Session) (scheme : String) (a : Adapter) : Session :=
  ⟨(scheme, a) :: s.adapters.filter (fun kv => kv.fst != scheme)⟩

/-- Adapter lookup for a mounted scheme prefix. -/
def lookupAdapter (s : Session) (scheme : String) : Option Adapter :=
  (s.adapters.find? (fun kv => kv.fst == scheme)).map Prod.snd

/-- Pool-class lookup in a pool manager's `pool_classes_by_scheme`. -/
def lookupPool (m : SafePoolManager) (scheme : String) : Option PoolClass :=
  (m.pool_classes_by_scheme.find? (fun kv => kv.fst == scheme)).map Prod.snd

/-- `apply` (source lines 282-285): construct a `SafeHTTPAdapter` and
mount it for both scheme prefixes. -/
def apply (s : Session) : Session :=
  (s.mount "http://" (Adapter.safe SafeHTTPAdapter.make)).mount "https://"
    (Adapter.safe SafeHTTPAdapter.make)

/-! ### Concrete evaluations of the classifier -/

example : ip_is_safe "8.8.8.8" = Except.ok true := by decide
example : ip_is_safe "10.0.0.1" = Except.ok false := by decide
example : ip_is_safe "2001:db8::1" = Except.ok false := by decide
example : ip_is_safe "2606:2800:220:1:248:1893:25c8:1946" = Except.ok true := by decide
example : ip_is_safe "not-an-ip" = Except.error SafeError.addressParseError := by decide
example : ip_is_safe "::ffff:0:1" = Except.ok false := by decide
example : ip_is_safe "255.255.255.255" = Except.ok false := by decide

/-! ### Helper lemmas about the classifier verdicts -/

lemma safeCand_iff (c : Candidate) :
    safeCand c = true ↔ ip_is_safe c.addr = Except.ok true := by
  unfold safeCand
  cases h : ip_is_safe c.addr with
  | error e => simp
  | ok b => cases b <;> simp

lemma deniedCand_iff (c : Candidate) :
    deniedCand c = true ↔ ip_is_safe c.addr = Except.ok false := by
  unfold deniedCand
  cases h : ip_is_safe c.addr with
  | error e => simp
  | ok b => cases b <;> simp

lemma ip_is_safe_of_valid (c : Candidate) (h : validCand c = true) :
    ip_is_safe c.addr = Except.ok true ∨ ip_is_safe c.addr = Except.ok false := by
  unfold validCand at h
  unfold ip_is_safe
  cases hip : ip_address c.addr with
  | none => rw [hip] at h; simp at h
  | some ip =>
    by_cases hany : (UNSAFE_NETWORKS.any fun n => netContains n ip) = true
    · simp [hany]
    · simp [hany]

lemma deniedCand_of_valid_not_safe (c : Candidate) (hv : validCand c = true)
    (hs : safeCand c = false) : deniedCand c = true := by
  rcases ip_is_safe_of_valid c hv with h | h
  · exact absurd ((safeCand_iff c).2 h) (by simp [hs])
  · exact (deniedCand_iff c).2 h

/-! ### Helper lemmas about the loop body -/

lemma candStep_denied (env : Candidate → AttemptOutcome) (timeout : Option Nat)
    (so : Option (List SockOpt)) (c : Candidate) (sid : Nat)
    (h : deniedCand c = true) :
    candStep env timeout so c sid = StepOut.next none [] 0 := by
  have hip := (deniedCand_iff c).1 h
  simp [candStep, hip]

lemma candStep_nonterm (env : Candidate → AttemptOutcome) (timeout : Option Nat)
    (os : List SockOpt) (c : Candidate) (sid : Nat)
    (hv : validCand c = true) (hg : goodCand env c = false) :
    candStep env timeout (some os) c sid =
      StepOut.next (candErr env c) (candEvs env timeout os c sid) (candK env c) := by
  rcases ip_is_safe_of_valid c hv with h | h
  · have hs : safeCand c = true := (safeCand_iff c).2 h
    have ho : isOkOutcome (env c) = false := by
      unfold goodCand at hg
      rw [hs] at hg
      simpa using hg
    cases henv : env c with
    | ok => rw [henv] at ho; simp [isOkOutcome] at ho
    | createFail e => simp [candStep, candErr, candEvs, candK, h, hs, henv]
    | timedOut => simp [candStep, candErr, candEvs, candK, h, hs, henv]
    | connectFail m => simp [candStep, candErr, candEvs, candK, h, hs, henv]
  · have hd : deniedCand c = true := (deniedCand_iff c).2 h
    have hs : safeCand c = false := by
      unfold safeCand
      rw [h]
    rw [candStep_denied env timeout (some os) c sid hd]
    simp [candErr, candEvs, candK, hs]

/-! ### Helper lemmas about the loop -/

lemma getLast?_cons_orElse {α : Type} (a : α) (l : List α) (x : Option α) :
    ((a :: l).getLast? <|> x) = (l.getLast? <|> some a) := by
  cases l with
  | nil => simp
  | cons b l' =>
    rw [List.getLast?_cons_cons]
    have hsome : (b :: l').getLast?.isSome := by
      rw [List.getLast?_isSome]
      simp
    rcases Option.isSome_iff_exists.1 hsome with ⟨y, hy⟩
    rw [hy]
    simp

lemma errAfter_cons (env : Candidate → AttemptOutcome) (d : Candidate)
    (pre : List Candidate) (err : Option SockErr) :
    errAfter env (d :: pre) err = errAfter env pre (candErr env d <|> err) := by
  unfold errAfter
  cases hc : candErr env d with
  | none => simp [List.filterMap_cons, hc]
  | some e => simp [List.filterMap_cons, hc, getLast?_cons_orElse]

lemma kOf_cons (env : Candidate → AttemptOutcome) (d : Candidate)
    (pre : List Candidate) : kOf env (d :: pre) = candK env d + kOf env pre := by
  simp [kOf]

lemma connLoop_append_nonterm (env : Candidate → AttemptOutcome) (timeout : Option Nat)
    (os : List SockOpt) (rest : List Candidate) (pre : List Candidate)
    (hv : ∀ d ∈ pre, validCand d = true) (hg : ∀ d ∈ pre, goodCand env d = false) :
    ∀ err sid,
      connLoop env timeout (some os) (pre ++ rest) err sid =
        ((connLoop env timeout (some os) rest (errAfter env pre err)
            (sid + kOf env pre)).fst,
         preEvs env timeout os pre sid ++
           (connLoop env timeout (some os) rest (errAfter env pre err)
              (sid + kOf env pre)).snd) := by
  induction pre with
  | nil =>
    intro err sid
    simp [errAfter, kOf, preEvs]
  | cons d pre ih =>
    intro err sid
    have hvd : validCand d = true := hv d (by simp)
    have hgd : goodCand env d = false := hg d (by simp)
    have hv' : ∀ x ∈ pre, validCand x = true := fun x hx => hv x (by simp [hx])
    have hg' : ∀ x ∈ pre, goodCand env x = false := fun x hx => hg x (by simp [hx])
    have hstep := candStep_nonterm env timeout os d sid hvd hgd
    simp only [List.cons_append, connLoop, hstep, List.append_eq]
    rw [ih hv' hg' (candErr env d <|> err) (sid + candK env d)]
    rw [errAfter_cons, kOf_cons]
    simp [preEvs, Nat.add_assoc]

lemma connLoop_all_denied (env : Candidate → AttemptOutcome) (timeout : Option Nat)
    (so : Option (List SockOpt)) (cands : List Candidate)
    (h : ∀ c ∈ cands, deniedCand c = true) :
    ∀ err sid,
      connLoop env timeout so cands err sid =
        ((match err with
          | some e => DialResult.raised e
          | none => DialResult.raised noAddrErr), []) := by
  induction cands with
  | nil =>
    intro err sid
    simp [connLoop]
  | cons c rest ih =>
    intro err sid
    have hc := h c (by simp)
    have h' : ∀ x ∈ rest, deniedCand x = true := fun x hx => h x (by simp [hx])
    simp only [connLoop, candStep_denied env timeout so c sid hc]
    rw [ih h' (none <|> err) (sid + 0)]
    cases err <;> simp

lemma connLoop_filter (env : Candidate → AttemptOutcome) (timeout : Option Nat)
    (so : Option (List SockOpt)) (cands : List Candidate) :
    ∀ err sid,
      connLoop env timeout so cands err sid =
        connLoop env timeout so (cands.filter (fun c => ! deniedCand c)) err sid := by
  induction cands with
  | nil => intro err sid; rfl
  | cons c rest ih =>
    intro err sid
    by_cases hc : deniedCand c = true
    · have hfilter : List.filter (fun c => ! deniedCand c) (c :: rest) =
          List.filter (fun c => ! deniedCand c) rest := by
        simp [List.filter_cons, hc]
      rw [hfilter]
      simp only [connLoop, candStep_denied env timeout so c sid hc]
      rw [ih (none <|> err) (sid + 0)]
      simp
    · have hc' : deniedCand c = false := by simpa using hc
      have hfilter : List.filter (fun c => ! deniedCand c) (c :: rest) =
          c :: List.filter (fun c => ! deniedCand c) rest := by
        simp [List.filter_cons, hc']
      rw [hfilter]
      simp only [connLoop]
      cases hstep : candStep env timeout so c sid with
      | ret r evs => rfl
      | next ne evs k =>
        dsimp only
        rw [ih (ne <|> err) (sid + k)]

/-! ### Claim theorems -/

/-- C1: for every syntactically valid IP address (v4 or v6), `ip_is_safe`
returns `false` iff the address falls inside at least one network of the
fixed denylist of matching family (family matching is part of
`netContains`), and `true` otherwise; the denylist consists of exactly
sixteen IPv4 and thirteen IPv6 CIDR ranges; in particular
`ip_is_safe "8.8.8.8"` and
`ip_is_safe "2606:2800:220:1:248:1893:25c8:1946"` are `true`. -/
theorem ip_is_safe_denylist :
    (∀ (s : String) (ip : IPAddr), ip_address s = some ip →
      ((ip_is_safe s = Except.ok false ↔
         ∃ n ∈ UNSAFE_NETWORKS, netContains n ip = true) ∧
       (ip_is_safe s = Except.ok true ↔
         ∀ n ∈ UNSAFE_NETWORKS, netContains n ip = false))) ∧
    (UNSAFE_NETWORKS.filter isV4Net).length = 16 ∧
    (UNSAFE_NETWORKS.filter (fun n => ! isV4Net n)).length = 13 ∧
    ip_is_safe "8.8.8.8" = Except.ok true ∧
    ip_is_safe "2606:2800:220:1:248:1893:25c8:1946" = Except.ok true := by
  refine ⟨?_, by decide, by decide, by decide, by decide⟩
  intro s ip h
  unfold ip_is_safe
  rw [h]
  dsimp only
  by_cases hany : (UNSAFE_NETWORKS.any fun n => netContains n ip) = true
  · rw [if_pos hany]
    rw [List.any_eq_true] at hany
    constructor
    · constructor
      · intro _
        exact hany
      · intro _
        rfl
    · constructor
      · intro hcontra
        exact absurd hcontra (by simp)
      · intro hall
        obtain ⟨n, hn, hcn⟩ := hany
        rw [hall n hn] at hcn
        exact absurd hcn (by simp)
  · rw [if_neg hany]
    have hall : ∀ n ∈ UNSAFE_NETWORKS, netContains n ip = false := by
      intro n hn
      by_contra hcn
      exact hany (List.any_eq_true.2 ⟨n, hn, by simpa using hcn⟩)
    constructor
    · constructor
      · intro hcontra
        exact absurd hcontra (by simp)
      · rintro ⟨n, hn, hcn⟩
        rw [hall n hn] at hcn
        exact absurd hcn (by simp)
    · exact ⟨fun _ => hall, fun _ => rfl⟩

theorem ip_is_safe_denylist_witness :
    ip_is_safe "10.0.0.1" = Except.ok false ↔
      ∃ n ∈ UNSAFE_NETWORKS, netContains n (IPAddr.v4 167772161) = true :=
  (ip_is_safe_denylist.1 "10.0.0.1" (IPAddr.v4 167772161) (by decide)).1

/-- C2: the observable behaviour of `create_connection` — its result and
its full socket-event trace — on any candidate list equals its behaviour
on the list with every denylisted candidate removed: a denylisted
candidate is skipped with no socket, no event and no recorded error; in
particular a list of only denylisted candidates is indistinguishable from
the empty list. -/
theorem create_connection_filter_equiv (env : Candidate → AttemptOutcome)
    (timeout : Option Nat) (so : Option (List SockOpt)) (cands : List Candidate) :
    create_connection env cands timeout so =
      create_connection env (cands.filter (fun c => ! deniedCand c)) timeout so ∧
    ((∀ c ∈ cands, deniedCand c = true) →
      create_connection env cands timeout so =
        create_connection env [] timeout so) := by
  constructor
  · exact connLoop_filter env timeout so cands none 0
  · intro h
    have hnil : cands.filter (fun c => ! deniedCand c) = [] := by
      rw [List.filter_eq_nil_iff]
      intro a ha
      simp [h a ha]
    calc create_connection env cands timeout so
        = create_connection env (cands.filter (fun c => ! deniedCand c)) timeout so :=
          connLoop_filter env timeout so cands none 0
      _ = create_connection env [] timeout so := by rw [hnil]

theorem create_connection_filter_equiv_witness :
    create_connection (fun _ => AttemptOutcome.ok)
        [⟨10, 1, 6, "", "2001:db8::1", 80⟩] (some 5) (some []) =
      create_connection (fun _ => AttemptOutcome.ok) [] (some 5) (some []) :=
  (create_connection_filter_equiv (fun _ => AttemptOutcome.ok) (some 5) (some [])
      [⟨10, 1, 6, "", "2001:db8::1", 80⟩]).2 (by decide)

/-- C3: when resolution yields no candidates or every candidate is
denylisted, no connect attempt is made — the event trace is empty — and
`create_connection` raises the fixed non-timeout `socket.error` whose
message is the canonical phrasing "getaddrinfo returns an empty list",
one constant value independent of which or how many candidates were
filtered, distinct from the attempt-error path that re-raises the last
recorded attempt error. -/
theorem no_attempt_noAddresses (env : Candidate → AttemptOutcome)
    (timeout : Option Nat) (so : Option (List SockOpt)) (cands : List Candidate)
    (h : ∀ c ∈ cands, deniedCand c = true) :
    create_connection env cands timeout so = (DialResult.raised noAddrErr, []) ∧
    noAddrErr = ⟨false, "getaddrinfo returns an empty list"⟩ := by
  refine ⟨?_, rfl⟩
  have hrun := connLoop_all_denied env timeout so cands h none 0
  simpa [create_connection] using hrun

theorem no_attempt_noAddresses_witness :
    create_connection (fun _ => AttemptOutcome.ok)
        [⟨10, 1, 6, "", "2001:db8::1", 80⟩] (some 5) (some [(6, 1, 1)]) =
      (DialResult.raised noAddrErr, []) ∧
    noAddrErr = ⟨false, "getaddrinfo returns an empty list"⟩ :=
  no_attempt_noAddresses (fun _ => AttemptOutcome.ok) (some 5) (some [(6, 1, 1)])
    [⟨10, 1, 6, "", "2001:db8::1", 80⟩] (by decide)

/-- C7: on an input that is not a syntactically valid IP literal the
classifier raises the address-parse error — it never returns a `true` or
`false` filtering verdict. -/
theorem invalid_ip_raises (s : String) (h : ip_address s = none) :
    ip_is_safe s = Except.error SafeError.addressParseError ∧
    ∀ b : Bool, ip_is_safe s ≠ Except.ok b := by
  have heq : ip_is_safe s = Except.error SafeError.addressParseError := by
    unfold ip_is_safe
    rw [h]
  refine ⟨heq, ?_⟩
  intro b hb
  rw [heq] at hb
  exact Except.noConfusion hb

theorem invalid_ip_raises_witness :
    ip_is_safe "not-an-ip" = Except.error SafeError.addressParseError ∧
    ∀ b : Bool, ip_is_safe "not-an-ip" ≠ Except.ok b :=
  invalid_ip_raises "not-an-ip" (by decide)

/-- C4: candidates are processed one at a time in resolver order; if every
candidate before `c` is either filtered or fails its attempt and `c` is a
safe candidate whose connect succeeds, the call returns the socket
connected to `c`'s address — the trace ends with that connect event — and
the whole run equals the run on the list truncated right after `c`, so no
later candidate is attempted in any way. -/
theorem first_good_candidate_wins (env : Candidate → AttemptOutcome)
    (timeout : Option Nat) (os : List SockOpt) (pre : List Candidate)
    (c : Candidate) (post : List Candidate)
    (hv : ∀ d ∈ pre, validCand d = true)
    (hg : ∀ d ∈ pre, goodCand env d = false)
    (hc : goodCand env c = true) :
    ∃ sid evs,
      create_connection env (pre ++ c :: post) timeout (some os) =
        (DialResult.connected sid, evs) ∧
      evs.getLast? = some (Event.connect sid c.addr c.port) ∧
      create_connection env (pre ++ c :: post) timeout (some os) =
        create_connection env (pre ++ [c]) timeout (some os) := by
  have hboth : safeCand c = true ∧ isOkOutcome (env c) = true := by
    simpa [goodCand] using hc
  have hs : safeCand c = true := hboth.1
  have hok : isOkOutcome (env c) = true := hboth.2
  have hipc : ip_is_safe c.addr = Except.ok true := (safeCand_iff c).1 hs
  have henv : env c = AttemptOutcome.ok := by
    cases he : env c with
    | ok => rfl
    | createFail e => rw [he] at hok; simp [isOkOutcome] at hok
    | timedOut => rw [he] at hok; simp [isOkOutcome] at hok
    | connectFail m => rw [he] at hok; simp [isOkOutcome] at hok
  have hstepc : ∀ sid : Nat, candStep env timeout (some os) c sid =
      StepOut.ret (DialResult.connected sid) (attemptEvents sid c os timeout) := by
    intro sid
    simp [candStep, hipc, henv]
  have h1 := connLoop_append_nonterm env timeout os (c :: post) pre hv hg none 0
  have h2 := connLoop_append_nonterm env timeout os [c] pre hv hg none 0
  have hc1 : connLoop env timeout (some os) (c :: post) (errAfter env pre none)
      (0 + kOf env pre) =
      (DialResult.connected (0 + kOf env pre),
       attemptEvents (0 + kOf env pre) c os timeout) := by
    simp only [connLoop, hstepc]
  have hc2 : connLoop env timeout (some os) [c] (errAfter env pre none)
      (0 + kOf env pre) =
      (DialResult.connected (0 + kOf env pre),
       attemptEvents (0 + kOf env pre) c os timeout) := by
    simp only [connLoop, hstepc]
  refine ⟨0 + kOf env pre,
    preEvs env timeout os pre 0 ++ attemptEvents (0 + kOf env pre) c os timeout,
    ?_, ?_, ?_⟩
  · show connLoop env timeout (some os) (pre ++ c :: post) none 0 = _
    rw [h1, hc1]
  · unfold attemptEvents
    rw [← List.append_assoc]
    exact List.getLast?_concat _
  · show connLoop env timeout (some os) (pre ++ c :: post) none 0 =
      connLoop env timeout (some os) (pre ++ [c]) none 0
    rw [h1, h2, hc1, hc2]

theorem first_good_candidate_wins_witness :
    ∃ sid evs,
      create_connection
          (fun d => if d.addr = "93.184.216.34" then
            AttemptOutcome.connectFail "refused" else AttemptOutcome.ok)
          ([⟨2, 1, 6, "", "10.0.0.1", 80⟩, ⟨2, 1, 6, "", "93.184.216.34", 80⟩] ++
            ⟨2, 1, 6, "", "8.8.8.8", 80⟩ :: [⟨2, 1, 6, "", "1.1.1.1", 80⟩])
          (some 7) (some [(6, 1, 1)]) =
        (DialResult.connected sid, evs) ∧
      evs.getLast? = some (Event.connect sid "8.8.8.8" 80) ∧
      create_connection
          (fun d => if d.addr = "93.184.216.34" then
            AttemptOutcome.connectFail "refused" else AttemptOutcome.ok)
          ([⟨2, 1, 6, "", "10.0.0.1", 80⟩, ⟨2, 1, 6, "", "93.184.216.34", 80⟩] ++
            ⟨2, 1, 6, "", "8.8.8.8", 80⟩ :: [⟨2, 1, 6, "", "1.1.1.1", 80⟩])
          (some 7) (some [(6, 1, 1)]) =
        create_connection
          (fun d => if d.addr = "93.184.216.34" then
            AttemptOutcome.connectFail "refused" else AttemptOutcome.ok)
          ([⟨2, 1, 6, "", "10.0.0.1", 80⟩, ⟨2, 1, 6, "", "93.184.216.34", 80⟩] ++
            [⟨2, 1, 6, "", "8.8.8.8", 80⟩])
          (some 7) (some [(6, 1, 1)]) :=
  first_good_candidate_wins
    (fun d => if d.addr = "93.184.216.34" then
      AttemptOutcome.connectFail "refused" else AttemptOutcome.ok)
    (some 7) [(6, 1, 1)]
    [⟨2, 1, 6, "", "10.0.0.1", 80⟩, ⟨2, 1, 6, "", "93.184.216.34", 80⟩]
    ⟨2, 1, 6, "", "8.8.8.8", 80⟩ [⟨2, 1, 6, "", "1.1.1.1", 80⟩]
    (by decide) (by decide) (by decide)

lemma connLoop_all_fail_fst (env : Candidate → AttemptOutcome) (timeout : Option Nat)
    (os : List SockOpt) (cands : List Candidate)
    (hv : ∀ d ∈ cands, validCand d = true)
    (hg : ∀ d ∈ cands, goodCand env d = false) :
    (connLoop env timeout (some os) cands none 0).fst =
      DialResult.raised (((cands.filterMap (candErr env)).getLast?).getD noAddrErr) := by
  have h := connLoop_append_nonterm env timeout os [] cands hv hg none 0
  rw [List.append_nil] at h
  rw [h]
  unfold errAfter
  cases hl : (cands.filterMap (candErr env)).getLast? with
  | none => simp [connLoop]
  | some e => simp [connLoop]

/-- C5: when at least one connect attempt was made and every attempt
failed, `create_connection` raises the error recorded from the last
attempted candidate (not the first), and `SafeHTTPConnection._new_conn`
surfaces it as a `ConnectTimeoutError` naming the requested host and the
timeout value when that last failure was a timeout, and otherwise as a
`NewConnectionError` preserving the underlying error text. -/
theorem all_attempts_fail_last_error (env : Candidate → AttemptOutcome)
    (timeout : Option Nat) (os : List SockOpt) (cands : List Candidate)
    (host : String)
    (hv : ∀ d ∈ cands, validCand d = true)
    (hg : ∀ d ∈ cands, goodCand env d = false)
    (ha : ∃ d ∈ cands, safeCand d = true)
    (hos : os ≠ []) :
    ∃ e : SockErr,
      (cands.filterMap (candErr env)).getLast? = some e ∧
      (create_connection env cands timeout (some os)).fst = DialResult.raised e ∧
      new_conn host timeout os env cands =
        (if e.isTimeout then
          NewConnResult.connectTimeoutError
            ("Connection to " ++ host ++ " timed out. (connect timeout=" ++
              pyStr timeout ++ ")")
        else
          NewConnResult.newConnectionError
            ("Failed to establish a new connection: " ++ e.msg)) := by
  obtain ⟨d, hd, hds⟩ := ha
  have hnotok : isOkOutcome (env d) = false := by
    have hgd : (safeCand d && isOkOutcome (env d)) = false := hg d hd
    rw [hds] at hgd
    simpa using hgd
  have hde : ∃ e0, candErr env d = some e0 := by
    unfold candErr
    rw [hds]
    cases he : env d with
    | ok => rw [he] at hnotok; simp [isOkOutcome] at hnotok
    | createFail e0 => exact ⟨e0, by simp⟩
    | timedOut => exact ⟨timedOutErr, by simp⟩
    | connectFail m => exact ⟨⟨false, m⟩, by simp⟩
  obtain ⟨e0, he0⟩ := hde
  have hne : cands.filterMap (candErr env) ≠ [] := by
    intro hnil
    have hmem : e0 ∈ cands.filterMap (candErr env) :=
      List.mem_filterMap.2 ⟨d, hd, he0⟩
    rw [hnil] at hmem
    exact absurd hmem (List.not_mem_nil e0)
  obtain ⟨e, he⟩ :=
    Option.isSome_iff_exists.1 (by rw [List.getLast?_isSome]; exact hne)
  have hfst : (create_connection env cands timeout (some os)).fst =
      DialResult.raised e := by
    have hh := connLoop_all_fail_fst env timeout os cands hv hg
    rw [he] at hh
    simpa [create_connection] using hh
  refine ⟨e, he, hfst, ?_⟩
  have hosne : os.isEmpty = false := by
    cases os with
    | nil => exact absurd rfl hos
    | cons a l => rfl
  unfold new_conn
  simp only [hosne, Bool.false_eq_true, if_false, hfst]

theorem all_attempts_fail_last_error_witness :
    ∃ e : SockErr,
      ([⟨2, 1, 6, "", "93.184.216.34", 80⟩,
        ⟨10, 1, 6, "", "2606:2800:220:1:248:1893:25c8:1946", 80⟩].filterMap
          (candErr (fun d => if d.addr = "93.184.216.34" then
            AttemptOutcome.connectFail "refused" else AttemptOutcome.timedOut))).getLast? =
        some e ∧
      (create_connection
          (fun d => if d.addr = "93.184.216.34" then
            AttemptOutcome.connectFail "refused" else AttemptOutcome.timedOut)
          [⟨2, 1, 6, "", "93.184.216.34", 80⟩,
           ⟨10, 1, 6, "", "2606:2800:220:1:248:1893:25c8:1946", 80⟩]
          (some 9) (some [(6, 1, 1)])).fst = DialResult.raised e ∧
      new_conn "example.com" (some 9) [(6, 1, 1)]
          (fun d => if d.addr = "93.184.216.34" then
            AttemptOutcome.connectFail "refused" else AttemptOutcome.timedOut)
          [⟨2, 1, 6, "", "93.184.216.34", 80⟩,
           ⟨10, 1, 6, "", "2606:2800:220:1:248:1893:25c8:1946", 80⟩] =
        (if e.isTimeout then
          NewConnResult.connectTimeoutError
            ("Connection to " ++ "example.com" ++ " timed out. (connect timeout=" ++
              pyStr (some 9) ++ ")")
        else
          NewConnResult.newConnectionError
            ("Failed to establish a new connection: " ++ e.msg)) :=
  all_attempts_fail_last_error
    (fun d => if d.addr = "93.184.216.34" then
      AttemptOutcome.connectFail "refused" else AttemptOutcome.timedOut)
    (some 9) [(6, 1, 1)]
    [⟨2, 1, 6, "", "93.184.216.34", 80⟩,
     ⟨10, 1, 6, "", "2606:2800:220:1:248:1893:25c8:1946", 80⟩]
    "example.com" (by decide) (by decide) (by decide) (by decide)

/-- C8: for a safe candidate whose attempt reaches the socket stage, the
trace of its dial call contains, contiguously and in this order: the
socket creation for the candidate's family/type/protocol, one
`setsockopt` event per entry of `socket_options` in the order given, the
`settimeout` event exactly when a timeout was explicitly requested (none
otherwise, leaving the platform's ambient default), and only then the
connect call. -/
theorem attempt_event_order (env : Candidate → AttemptOutcome)
    (timeout : Option Nat) (os : List SockOpt) (pre : List Candidate)
    (c : Candidate) (post : List Candidate)
    (hv : ∀ d ∈ pre, validCand d = true)
    (hg : ∀ d ∈ pre, goodCand env d = false)
    (hs : safeCand c = true)
    (hcf : isCreateFail (env c) = false) :
    ∃ sid evsBefore evsAfter,
      (create_connection env (pre ++ c :: post) timeout (some os)).snd =
        evsBefore ++
          (Event.sockCreate sid c.af c.socktype c.proto ::
            (os.map (Event.setsockopt sid) ++ timeoutEvs sid timeout ++
             [Event.connect sid c.addr c.port])) ++ evsAfter := by
  have hipc := (safeCand_iff c).1 hs
  have h1 := connLoop_append_nonterm env timeout os (c :: post) pre hv hg none 0
  have hblock : ∀ sid, ∃ tail,
      (connLoop env timeout (some os) (c :: post) (errAfter env pre none) sid).snd =
        attemptEvents sid c os timeout ++ tail := by
    intro sid
    cases he : env c with
    | createFail e => rw [he] at hcf; simp [isCreateFail] at hcf
    | ok =>
      refine ⟨[], ?_⟩
      simp only [connLoop, candStep, hipc, he]
      simp
    | timedOut =>
      refine ⟨Event.close sid ::
        (connLoop env timeout (some os) post
          (some timedOutErr <|> errAfter env pre none) (sid + 1)).snd, ?_⟩
      simp only [connLoop, candStep, hipc, he]
      simp
    | connectFail m =>
      refine ⟨Event.close sid ::
        (connLoop env timeout (some os) post
          (some ⟨false, m⟩ <|> errAfter env pre none) (sid + 1)).snd, ?_⟩
      simp only [connLoop, candStep, hipc, he]
      simp
  obtain ⟨tail, htail⟩ := hblock (0 + kOf env pre)
  refine ⟨0 + kOf env pre, preEvs env timeout os pre 0, tail, ?_⟩
  show (connLoop env timeout (some os) (pre ++ c :: post) none 0).snd = _
  rw [h1]
  dsimp only
  rw [htail]
  unfold attemptEvents
  simp [List.append_assoc]

theorem attempt_event_order_witness :
    ∃ sid evsBefore evsAfter,
      (create_connection (fun _ => AttemptOutcome.timedOut)
          ([⟨2, 1, 6, "", "10.0.0.1", 80⟩] ++ ⟨2, 1, 6, "", "8.8.8.8", 80⟩ :: [])
          (some 7) (some [(1, 2, 3), (4, 5, 6)])).snd =
        evsBefore ++
          (Event.sockCreate sid 2 1 6 ::
            ([(1, 2, 3), (4, 5, 6)].map (Event.setsockopt sid) ++
             timeoutEvs sid (some 7) ++
             [Event.connect sid "8.8.8.8" 80])) ++ evsAfter :=
  attempt_event_order (fun _ => AttemptOutcome.timedOut) (some 7)
    [(1, 2, 3), (4, 5, 6)] [⟨2, 1, 6, "", "10.0.0.1", 80⟩]
    ⟨2, 1, 6, "", "8.8.8.8", 80⟩ []
    (by decide) (by decide) (by decide) (by decide)

lemma connLoop_none_typeError (env : Candidate → AttemptOutcome) (timeout : Option Nat) :
    ∀ (cands : List Candidate) (c : Candidate) (err : Option SockErr),
      (∀ d ∈ cands, validCand d = true) →
      cands.find? safeCand = some c →
      isCreateFail (env c) = false →
      connLoop env timeout none cands err 0 =
        (DialResult.typeError, [Event.sockCreate 0 c.af c.socktype c.proto]) := by
  intro cands
  induction cands with
  | nil =>
    intro c err hv hfind hcf
    simp [List.find?] at hfind
  | cons d rest ih =>
    intro c err hv hfind hcf
    by_cases hd : safeCand d = true
    · have hdc : d = c := by
        simpa [List.find?, hd] using hfind
      subst hdc
      have hipd := (safeCand_iff d).1 hd
      cases he : env d with
      | createFail e => rw [he] at hcf; simp [isCreateFail] at hcf
      | ok => simp [connLoop, candStep, hipd, he]
      | timedOut => simp [connLoop, candStep, hipd, he]
      | connectFail m => simp [connLoop, candStep, hipd, he]
    · have hsf : safeCand d = false := by simpa using hd
      have hvd := hv d (by simp)
      have hdd : deniedCand d = true := deniedCand_of_valid_not_safe d hvd hsf
      have hfind' : rest.find? safeCand = some c := by
        simpa [List.find?, hsf] using hfind
      have hv' : ∀ x ∈ rest, validCand x = true := fun x hx => hv x (by simp [hx])
      simp only [connLoop, candStep_denied env timeout none d 0 hdd, Nat.add_zero]
      rw [ih c (none <|> err) hv' hfind' hcf]
      simp

/-- C10: a call that leaves `socket_options` at its `None` default and
whose candidate list contains a safe candidate creates a socket for the
first safe candidate and then raises a `TypeError` from iterating over
`None` — an error outside the `socket.error` taxonomy that escapes the
per-candidate `except socket.error` handler — and no `close` event ever
occurs, so the created socket is left open. -/
theorem none_options_typeError (env : Candidate → AttemptOutcome)
    (timeout : Option Nat) (cands : List Candidate) (c : Candidate)
    (hv : ∀ d ∈ cands, validCand d = true)
    (hfind : cands.find? safeCand = some c)
    (hcf : isCreateFail (env c) = false) :
    create_connection env cands timeout none =
      (DialResult.typeError, [Event.sockCreate 0 c.af c.socktype c.proto]) ∧
    ∀ sid, Event.close sid ∉ (create_connection env cands timeout none).snd := by
  have h : create_connection env cands timeout none =
      (DialResult.typeError, [Event.sockCreate 0 c.af c.socktype c.proto]) :=
    connLoop_none_typeError env timeout cands c none hv hfind hcf
  refine ⟨h, ?_⟩
  intro sid hmem
  rw [h] at hmem
  simp at hmem

theorem none_options_typeError_witness :
    create_connection (fun _ => AttemptOutcome.ok)
        [⟨2, 1, 6, "", "10.0.0.1", 80⟩, ⟨2, 1, 6, "", "8.8.8.8", 80⟩]
        (some 4) none =
      (DialResult.typeError, [Event.sockCreate 0 2 1 6]) ∧
    ∀ sid, Event.close sid ∉ (create_connection (fun _ => AttemptOutcome.ok)
        [⟨2, 1, 6, "", "10.0.0.1", 80⟩, ⟨2, 1, 6, "", "8.8.8.8", 80⟩]
        (some 4) none).snd :=
  none_options_typeError (fun _ => AttemptOutcome.ok) (some 4)
    [⟨2, 1, 6, "", "10.0.0.1", 80⟩, ⟨2, 1, 6, "", "8.8.8.8", 80⟩]
    ⟨2, 1, 6, "", "8.8.8.8", 80⟩ (by decide) (by decide) (by decide)

/-- C6 (code bug, concrete evaluation): dialing one safe reachable
candidate with `socket_options` left at its `None` default creates socket
0 and then ends with the uncaught `TypeError`; the trace contains the
creation of socket 0, no `close` for it, and no `connected` result — the
socket is leaked, contradicting the specification's "no socket is ever
leaked" on every exit path. -/
theorem socket_leak_on_none_options :
    create_connection (fun _ => AttemptOutcome.ok)
        [⟨2, 1, 6, "", "93.184.216.34", 80⟩] (some 10) none =
      (DialResult.typeError, [Event.sockCreate 0 2 1 6]) ∧
    Event.sockCreate 0 2 1 6 ∈ [Event.sockCreate 0 2 1 6] ∧
    Event.close 0 ∉ [Event.sockCreate 0 2 1 6] :=
  ⟨by decide, by decide, by decide⟩

/-- C9: after `apply`, both the "http://" and "https://" prefixes resolve
to the safety-checked adapter; its pool manager maps scheme "http" to the
safe plaintext pool class and scheme "https" to the safe TLS pool class;
and the connection class of each of those pool classes dials through
`new_conn`, the model of `SafeHTTPConnection._new_conn`, which wraps the
safe `create_connection`. -/
theorem apply_routes_safe (s : Session) :
    lookupAdapter (apply s) "http://" = some (Adapter.safe SafeHTTPAdapter.make) ∧
    lookupAdapter (apply s) "https://" = some (Adapter.safe SafeHTTPAdapter.make) ∧
    lookupPool SafeHTTPAdapter.make.poolmanager "http" = some PoolClass.safeHTTPPool ∧
    lookupPool SafeHTTPAdapter.make.poolmanager "https" = some PoolClass.safeHTTPSPool ∧
    classNewConn (ConnectionCls PoolClass.safeHTTPPool) = some new_conn ∧
    classNewConn (ConnectionCls PoolClass.safeHTTPSPool) = some new_conn :=
  ⟨rfl, rfl, rfl, rfl, rfl, rfl⟩

end RequestsSafe
